import Mathlib

/-!
Verification of the orchestration pipeline in `src/main.ts` of
`qoder-core-action`: input resolution, config materialization, binary
provisioning, argument/environment assembly, stdout result extraction, and
outcome classification at process exit.

The JavaScript source is shallowly embedded: every stateful step is a pure
Lean function whose extra parameters stand for the external capabilities the
code calls (the `JSON.parse` oracle, the filesystem, the HTTP response, the
host environment), and whose result records the observable effects (info,
warning, `setFailed`, `setOutput`, file writes, `chmod`).
-/

/-- JSON values as produced by `JSON.parse` (numbers restricted to integers,
which is all the orchestration logic ever inspects). -/
inductive Json where
  | null
  | bool (b : Bool)
  | num (n : Int)
  | str (s : String)
  | arr (elems : List Json)
  | obj (fields : List (String × Json))

/-- JavaScript truthiness of a JSON value (`undefined` is handled separately
as `Option.none` at use sites). -/
def jsTruthy : Json → Bool
  | Json.null => false
  | Json.bool b => b
  | Json.num n => n != 0
  | Json.str s => s != ""
  | Json.arr _ => true
  | Json.obj _ => true

/-- Whether a JSON value is `null`. -/
def isNull : Json → Bool
  | Json.null => true
  | _ => false

mutual
/-- JavaScript `String(v)` template-literal rendering of a JSON value, used
by the warning message `Result type: ${resultType}.` in `src/main.ts`. -/
def jsToString : Json → String
  | Json.null => "null"
  | Json.bool b => cond b "true" "false"
  | Json.num n => toString n
  | Json.str s => s
  | Json.obj _ => "[object Object]"
  | Json.arr xs => jsArrString xs

/-- JavaScript `Array.prototype.toString`: elements joined by commas, with
`null` elements rendered as the empty string. -/
def jsArrString : List Json → String
  | [] => ""
  | [Json.null] => ""
  | [x] => jsToString x
  | Json.null :: xs => "," ++ jsArrString xs
  | x :: xs => jsToString x ++ "," ++ jsArrString xs
end

/-- Duplicate object keys resolve to the last binding, as in `JSON.parse`. -/
def lookupLast (fields : List (String × Json)) (k : String) : Option Json :=
  fields.foldl (fun acc f => if f.1 = k then some f.2 else acc) none

/-- JavaScript property access `v[k]` on a JSON value that is not
`null`/`undefined`: field lookup on objects, `undefined` (`none`) otherwise. -/
def jsMember (v : Json) (k : String) : Option Json :=
  match v with
  | Json.obj fields => lookupLast fields k
  | _ => none

/-- JavaScript property access `v.k` without optional chaining: throws a
`TypeError` when `v` is `null` (as `result.subtype` does in `src/main.ts`
when the parsed record is JSON `null`), otherwise yields `jsMember`. -/
def jsMemberStrict (v : Json) (k : String) : Except String (Option Json) :=
  match v with
  | Json.null =>
      Except.error ("Cannot read properties of null (reading \x27" ++ k ++ "\x27)")
  | v => Except.ok (jsMember v k)

/-- `result.subtype || \x27unknown\x27` from `src/main.ts` line 202: the
subtype field when truthy, the string `"unknown"` otherwise. -/
def resultTypeOf (subtypeField : Option Json) : Json :=
  match subtypeField with
  | some j => if jsTruthy j then j else Json.str "unknown"
  | none => Json.str "unknown"

/-- Strict equality `resultType === \x27success\x27` from line 205. -/
def isSuccessType : Json → Bool
  | Json.str s => s == "success"
  | _ => false

/-- `result.message?.content?.[0]?.text || \x27\x27` from line 203 (JavaScript
optional chaining; a non-string text value is kept as a JSON value, the
`|| \x27\x27` default applies to falsy results). This local is computed by the
source but never used afterwards. -/
def resultContentOf (result : Json) : Json :=
  let text :=
    match jsMember result "message" with
    | none => none
    | some m =>
      if isNull m then none else
      match jsMember m "content" with
      | none => none
      | some c =>
        if isNull c then none else
        match c with
        | Json.arr xs =>
          match xs.head? with
          | none => none
          | some x0 => if isNull x0 then none else jsMember x0 "text"
        | Json.obj fields =>
          match lookupLast fields "0" with
          | none => none
          | some x0 => if isNull x0 then none else jsMember x0 "text"
        | _ => none
  match text with
  | some t => if jsTruthy t then t else Json.str ""
  | none => Json.str ""

/-- The observable effects the `close` handler of `src/main.ts` can perform
through `@actions/core` and the log stream. `setOutput` is in the vocabulary
of `@actions/core`; whether it is ever invoked is exactly what claim C1 asks. -/
inductive Effect where
  | logEnd
  | info (msg : String)
  | warning (msg : String)
  | setFailed (msg : String)
  | setOutput (name value : String)
deriving DecidableEq

/-- Whether an effect is a `setOutput`. -/
def isSetOutput : Effect → Bool
  | Effect.setOutput _ _ => true
  | _ => false

/-- Whether an effect is a `setFailed`. -/
def isSetFailed : Effect → Bool
  | Effect.setFailed _ => true
  | _ => false

/-- Whether an effect is a `warning`. -/
def isWarningEffect : Effect → Bool
  | Effect.warning _ => true
  | _ => false

/-- Node renders a `null` exit code (process killed by a signal) as the
string `null` in the template literal of line 186. -/
def codeToString : Option Int → String
  | none => "null"
  | some n => toString n

/-- The `close` handler of `src/main.ts` lines 184-215, as a pure function of
the `JSON.parse` oracle `P`, the exit code (`none` models Node passing
`null`), and the retained `lastJsonLine`.  The returned list is the ordered
trace of effects.  Note that the source computes
`result.message?.content?.[0]?.text || \x27\x27` into a local (`resultContentOf`)
that it never uses, and that both a `JSON.parse` throw and the `TypeError`
thrown by `result.subtype` on a `null` record are caught by the same `catch`
block and reported as `Failed to parse final JSON: ...`. -/
def handleClose (P : String → Except String Json) (code : Option Int)
    (lastJsonLine : String) : List Effect :=
  let pre := [Effect.logEnd,
    Effect.info ("qoder-cli process exited with code " ++ codeToString code)]
  if code ≠ some 0 then
    pre ++ [Effect.setFailed "qoder-cli process failed. See qoder.log."]
  else if lastJsonLine = "" then
    pre ++ [Effect.setFailed "No valid JSON output from qoder-cli."]
  else
    pre ++ [Effect.info ("Final JSON: " ++ lastJsonLine)] ++
      match P lastJsonLine with
      | Except.error e => [Effect.setFailed ("Failed to parse final JSON: " ++ e)]
      | Except.ok result =>
        match jsMemberStrict result "subtype" with
        | Except.error e => [Effect.setFailed ("Failed to parse final JSON: " ++ e)]
        | Except.ok subtypeField =>
          let resultType := resultTypeOf subtypeField
          if isSuccessType resultType then
            [Effect.info "qoder-cli reported success."]
          else
            [Effect.warning ("qoder-cli did not report success. Result type: "
              ++ jsToString resultType ++ ".")]

/-- Whether the `JSON.parse` oracle accepts a line (the `try`/`catch` around
`JSON.parse(line)` on lines 169-172). -/
def parsesOk (P : String → Except String Json) (l : String) : Bool :=
  match P l with
  | Except.ok _ => true
  | Except.error _ => false

/-- ASCII whitespace, the characters `trim` strips from the lines at hand. -/
def isWsChar (c : Char) : Bool :=
  (c = ' ') || (c = '\t') || (c = '\n') || (c = '\r')

/-- `trim()` on the underlying character list: strip leading and trailing
whitespace. -/
def trimChars (cs : List Char) : List Char :=
  ((cs.dropWhile isWsChar).reverse.dropWhile isWsChar).reverse

/-- JavaScript `s.trim()`. -/
def jsTrim (s : String) : String :=
  String.mk (trimChars s.data)

/-- `split(\x27\n\x27)` on the underlying character list: the segments between
newline characters, keeping empty segments (as JavaScript does). -/
def splitCharsOnNL : List Char → List (List Char)
  | [] => [[]]
  | c :: rest =>
      if c = '\n' then [] :: splitCharsOnNL rest
      else
        match splitCharsOnNL rest with
        | [] => [[c]]
        | l :: ls => (c :: l) :: ls

/-- JavaScript `output.split(\x27\n\x27)`. -/
def splitOnNewlines (s : String) : List String :=
  (splitCharsOnNL s.data).map String.mk

/-- The non-blank filter `line.trim() !== \x27\x27` of line 167. -/
def nonBlank (l : String) : Bool :=
  jsTrim l != ""

/-- A line the extractor both keeps past the blank filter and parses. -/
def keptLine (P : String → Except String Json) (l : String) : Bool :=
  nonBlank l && parsesOk P l

/-- The body of the `data` handler for stdout (lines 163-174): split the
chunk on newlines, drop blank lines, and let every parsing line overwrite
the accumulator. -/
def jsonFilterLines (P : String → Except String Json) (acc : String)
    (output : String) : String :=
  ((splitOnNewlines output).filter nonBlank).foldl
    (fun a line => if parsesOk P line then line else a) acc

/-- The value of `lastJsonLine` after a run whose stdout arrived as the given
chunks (initial value `\x27\x27`, one `data` event per chunk). -/
def extractLastJsonLine (P : String → Except String Json)
    (chunks : List String) : String :=
  chunks.foldl (jsonFilterLines P) ""

/-- Modelled from the spec side for the refinement claim C3: "the retained
record ... equals exactly the last line that parses as JSON", with blank
lines skipped, and the empty string when no such line exists. -/
def lastValidJsonLine (P : String → Except String Json)
    (lines : List String) : String :=
  ((lines.filter (keptLine P)).getLast?).getD ""

/-- The action inputs as returned by `core.getInput` (absent inputs read as
the empty string, which JavaScript treats as falsy). -/
structure Inputs where
  prompt : String
  promptPath : String
  systemPrompt : String
  systemPromptPath : String
  apiKey : String
  config : String
  githubToken : String

/-- Lines 87-96 of `src/main.ts`: reading the inputs.  `core.getInput` with
`required: true` (the `dashscope_api_key` input, line 93) throws
`Input required and not supplied: <name>` when the value is empty; all other
inputs are optional and default to the empty string. -/
def readInputs (inputs : String → String) : Except String Inputs :=
  if inputs "dashscope_api_key" = "" then
    Except.error "Input required and not supplied: dashscope_api_key"
  else
    Except.ok
      { prompt := inputs "prompt"
        promptPath := inputs "prompt_path"
        systemPrompt := inputs "system_prompt"
        systemPromptPath := inputs "system_prompt_path"
        apiKey := inputs "dashscope_api_key"
        config := inputs "config"
        githubToken := inputs "github_token" }

/-- Lines 118-127: resolution of the system prompt after the task prompt has
been resolved to `promptContent`.  `fs` maps a path to its contents when the
file exists; `reads` accumulates the paths passed to `readFileSync`. -/
def resolveSystem (fs : String → Option String) (inp : Inputs)
    (promptContent : String) (reads : List String) :
    Except String (String × String) × List String :=
  if inp.systemPrompt ≠ "" then
    (Except.ok (promptContent, inp.systemPrompt), reads)
  else if inp.systemPromptPath ≠ "" then
    match fs inp.systemPromptPath with
    | none =>
        (Except.error ("System prompt file not found at: " ++ inp.systemPromptPath),
         reads)
    | some c => (Except.ok (promptContent, c), reads ++ [inp.systemPromptPath])
  else
    (Except.ok (promptContent, ""), reads)

/-- Lines 98-127: the mutual-exclusion checks followed by prompt and system
prompt resolution.  The pair of returned values is `(promptContent,
systemPromptContent)`; the second component of the result lists the file
reads performed, in order. -/
def resolvePrompts (fs : String → Option String) (inp : Inputs) :
    Except String (String × String) × List String :=
  if inp.prompt ≠ "" ∧ inp.promptPath ≠ "" then
    (Except.error "The `prompt` and `prompt_path` inputs are mutually exclusive. Please provide only one.",
     [])
  else if inp.systemPrompt ≠ "" ∧ inp.systemPromptPath ≠ "" then
    (Except.error "The `system_prompt` and `system_prompt_path` inputs are mutually exclusive. Please provide only one.",
     [])
  else if inp.prompt ≠ "" then
    resolveSystem fs inp inp.prompt []
  else if inp.promptPath ≠ "" then
    match fs inp.promptPath with
    | none => (Except.error ("Prompt file not found at: " ++ inp.promptPath), [])
    | some content => resolveSystem fs inp content [inp.promptPath]
  else
    (Except.error "Either the `prompt` or `prompt_path` input must be provided.", [])

/-- Lines 142-148: the argument vector handed to `spawn`.  The array literal
holds the prompt flag and the fixed output-format flag; the system-prompt
flag is pushed only when `systemPromptContent` is truthy (non-empty). -/
def buildArgs (promptContent systemPromptContent : String) : List String :=
  ["--prompt", promptContent, "--output-format", "stream-json"] ++
    (if systemPromptContent ≠ "" then ["--system-prompt", systemPromptContent] else [])

/-- The argument vector reaching the `spawn` call on line 152 for given
inputs: prompt resolution followed by `buildArgs` (the provisioning and
config steps between them do not touch the args). -/
def resolveAndBuildArgs (fs : String → Option String) (inp : Inputs) :
    Except String (List String) :=
  match (resolvePrompts fs inp).1 with
  | Except.error e => Except.error e
  | Except.ok (p, s) => Except.ok (buildArgs p s)

/-- Lines 153-157: the child environment object, as an association list where
a later binding for a key overrides an earlier one (JavaScript object spread).
`DASHSCOPE_API_KEY` is always written; the conditional spread
`...(githubToken && { GITHUB_TOKEN: githubToken })` adds `GITHUB_TOKEN` only
when the token is truthy (non-empty). -/
def buildEnv (parentEnv : List (String × String)) (apiKey githubToken : String) :
    List (String × String) :=
  parentEnv ++ [("DASHSCOPE_API_KEY", apiKey)] ++
    (if githubToken ≠ "" then [("GITHUB_TOKEN", githubToken)] else [])

/-- Lookup in an association-list environment, last binding wins. -/
def lookupEnv (env : List (String × String)) (k : String) : Option String :=
  env.foldl (fun acc p => if p.1 = k then some p.2 else acc) none

/-- `path.join(a, b)` for a simple relative file name. -/
def pathJoin (a b : String) : String :=
  a ++ "/" ++ b

/-- Result of the config materializer: the file write it performed (path and
exact contents), if any, and the error it threw, if any. -/
structure ConfigOutcome where
  written : Option (String × String)
  errorMsg : Option String

/-- `createCliConfig` (lines 9-29): skip when no config was provided,
validate with `JSON.parse` (oracle `P`) and only then write the raw string
verbatim with `fs.writeFileSync` to `.qoder-cli.json` under `cwd`; a parse
throw is re-wrapped with the parse diagnostic and nothing is written. -/
def createCliConfig (P : String → Except String Json) (cwd configJson : String) :
    ConfigOutcome :=
  if configJson = "" then
    { written := none, errorMsg := none }
  else
    match P configJson with
    | Except.error e =>
        { written := none
          errorMsg := some ("Failed to create .qoder-cli.json: " ++ e ++
            ". Please ensure the provided config is a valid JSON string.") }
    | Except.ok _ =>
        { written := some (pathJoin cwd ".qoder-cli.json", configJson)
          errorMsg := none }

/-- `fs.writeFileSync` semantics: the write replaces whatever was at the
path before. -/
def applyWrite (fs : String → Option String) (p c : String) :
    String → Option String :=
  fun q => if q = p then some c else fs q

/-- The HTTP response observed by `setupCli` (`statusCode`, `statusMessage`,
and the streamed body). -/
structure HttpResponse where
  statusCode : Nat
  statusMessage : String
  body : String

/-- Filesystem-visible steps of the binary provisioner, in order. -/
inductive SetupEvent where
  | httpGet (url : String)
  | fileWritten (dest contents : String)
  | chmod (dest mode : String)
  | streamFailed (dest : String)
deriving DecidableEq

/-- `setupCli` (lines 62-82): one GET; a non-200 `statusCode` throws
`Failed to download qoder-cli: <code> <message>` before any file activity;
otherwise the body is streamed to `dest` and `chmodSync(dest, \x27755\x27)` runs
only inside the `finish` handler of the write stream.  `writeResult` is the
outcome the write stream reports (`error` models the `error` event, on which
the promise rejects without any chmod). -/
def setupCli (url dest : String) (resp : HttpResponse)
    (writeResult : Except String Unit) : List SetupEvent × Except String Unit :=
  if resp.statusCode ≠ 200 then
    ([SetupEvent.httpGet url],
     Except.error ("Failed to download qoder-cli: " ++ toString resp.statusCode
       ++ " " ++ resp.statusMessage))
  else
    match writeResult with
    | Except.error e =>
        ([SetupEvent.httpGet url, SetupEvent.streamFailed dest], Except.error e)
    | Except.ok _ =>
        ([SetupEvent.httpGet url, SetupEvent.fileWritten dest resp.body,
          SetupEvent.chmod dest "755"], Except.ok ())

/-- A file as the provisioner sees it: contents and executable bit. -/
structure FileState where
  contents : Option String
  exec : Bool

/-- Effect of one provisioning event on the filesystem. -/
def applyEvent (fs : String → FileState) : SetupEvent → (String → FileState)
  | SetupEvent.httpGet _ => fs
  | SetupEvent.streamFailed _ => fs
  | SetupEvent.fileWritten d c =>
      fun p => if p = d then { contents := some c, exec := (fs d).exec } else fs p
  | SetupEvent.chmod d _ =>
      fun p => if p = d then { contents := (fs d).contents, exec := true } else fs p

/-- Effect of a provisioning event trace on the filesystem. -/
def applyEvents (fs : String → FileState) (evs : List SetupEvent) :
    String → FileState :=
  evs.foldl applyEvent fs

/-- A sample success record line: `\x7b"subtype":"success"\x7d`. -/
def successLine : String := "\x7b\"subtype\":\"success\"\x7d"

/-- A sample non-success record line: `\x7b"subtype":"error"\x7d`. -/
def errorLine : String := "\x7b\"subtype\":\"error\"\x7d"

/-- A concrete instance of the `JSON.parse` oracle that agrees with
JavaScript `JSON.parse` on the sample lines used in the concrete runs below
(in particular `JSON.parse("null")` succeeds and yields `null`) and rejects
everything else. -/
def sampleParse (s : String) : Except String Json :=
  if s = "null" then Except.ok Json.null
  else if s = successLine then Except.ok (Json.obj [("subtype", Json.str "success")])
  else if s = errorLine then Except.ok (Json.obj [("subtype", Json.str "error")])
  else Except.error "Unexpected token"

/-- `getD` of the `getLast?` of a cons: the head becomes the new default. -/
theorem getLastD_cons {α : Type _} (xs : List α) :
    ∀ (x d : α), ((x :: xs).getLast?).getD d = (xs.getLast?).getD x := by
  induction xs with
  | nil => intro x d; simp
  | cons y ys ih => intro x d; simp only [List.getLast?_cons_cons, ih]

/-- `getD` of the `getLast?` of an append, as a chain of defaults. -/
theorem getLastD_append {α : Type _} (A : List α) :
    ∀ (B : List α) (d : α),
      (((A ++ B).getLast?)).getD d = ((B.getLast?)).getD (((A.getLast?)).getD d) := by
  induction A with
  | nil => intro B d; simp
  | cons a A ih =>
      intro B d
      rw [List.cons_append, getLastD_cons, ih, getLastD_cons]

/-- A last-write-wins fold over a pre-filtered list computes the last element
passing both predicates, with the initial accumulator as the default. -/
theorem foldIf_filter {α : Type _} (p q : α → Bool) (ls : List α) :
    ∀ (acc : α),
      (ls.filter q).foldl (fun a l => if p l then l else a) acc
        = ((ls.filter (fun l => q l && p l)).getLast?).getD acc := by
  induction ls with
  | nil => intro acc; rfl
  | cons l t ih =>
      intro acc
      by_cases hq : q l
      · by_cases hp : p l
        · simp only [List.filter_cons, hq, hp, Bool.and_self, if_true, List.foldl_cons,
            getLastD_cons, ih]
        · simp only [List.filter_cons, hq, hp, Bool.and_false, if_true, if_false,
            List.foldl_cons, ih, Bool.false_eq_true]
      · simp only [List.filter_cons, hq, Bool.false_and, if_false, ih,
          Bool.false_eq_true]

/-- The per-chunk extractor step retains the last line of the chunk that is
non-blank and parses, defaulting to the incoming accumulator. -/
theorem jsonFilterLines_eq (P : String → Except String Json) (acc out : String) :
    jsonFilterLines P acc out
      = (((splitOnNewlines out).filter (keptLine P)).getLast?).getD acc := by
  unfold jsonFilterLines keptLine
  exact foldIf_filter (parsesOk P) nonBlank (splitOnNewlines out) acc

/-- The whole-stream extractor retains the last kept line across all chunks. -/
theorem extractFold_eq (P : String → Except String Json) (chunks : List String) :
    ∀ (acc : String),
      chunks.foldl (jsonFilterLines P) acc
        = ((((chunks.map splitOnNewlines).flatten).filter
            (keptLine P)).getLast?).getD acc := by
  induction chunks with
  | nil => intro acc; rfl
  | cons c cs ih =>
      intro acc
      rw [List.foldl_cons, ih, List.map_cons, List.flatten_cons, List.filter_append,
        getLastD_append, jsonFilterLines_eq]

/-- Claim C3: for every stdout stream, the retained record at end of stream is
empty when no (non-blank) line parses as JSON, and otherwise equals exactly
the last line that parses as JSON; parsing lines overwrite the record, lines
that fail to parse leave it unchanged, and blank lines are skipped.  The
left side is the source's chunk-by-chunk extractor, the right side the
spec's description applied to the sequence of lines the extractor processes. -/
theorem resultExtractorKeepsLastJsonLine (P : String → Except String Json)
    (chunks : List String) :
    extractLastJsonLine P chunks
      = lastValidJsonLine P ((chunks.map splitOnNewlines).flatten) := by
  unfold extractLastJsonLine lastValidJsonLine
  exact extractFold_eq P chunks ""

/-- The last-write-wins fold either returns its initial accumulator untouched
or returns an element satisfying the predicate. -/
theorem foldIf_invariant {α : Type _} (p : α → Bool) (ls : List α) :
    ∀ (acc : α),
      ls.foldl (fun a l => if p l then l else a) acc = acc
        ∨ p (ls.foldl (fun a l => if p l then l else a) acc) = true := by
  induction ls with
  | nil => intro acc; exact Or.inl rfl
  | cons l t ih =>
      intro acc
      rw [List.foldl_cons]
      by_cases hp : p l
      · rw [if_pos hp]
        rcases ih l with h | h
        · rw [h]; exact Or.inr hp
        · exact Or.inr h
      · rw [if_neg hp]
        exact ih acc

/-- One chunk step either leaves the accumulator unchanged or retains a line
the oracle parses. -/
theorem jsonFilterLines_invariant (P : String → Except String Json)
    (acc out : String) :
    jsonFilterLines P acc out = acc
      ∨ parsesOk P (jsonFilterLines P acc out) = true := by
  unfold jsonFilterLines
  exact foldIf_invariant (parsesOk P) ((splitOnNewlines out).filter nonBlank) acc

/-- At end of stream the retained record is either still the empty initial
string or a line accepted by the `JSON.parse` oracle. -/
theorem extract_invariant (P : String → Except String Json)
    (chunks : List String) :
    ∀ (acc : String),
      chunks.foldl (jsonFilterLines P) acc = acc
        ∨ parsesOk P (chunks.foldl (jsonFilterLines P) acc) = true := by
  induction chunks with
  | nil => intro acc; exact Or.inl rfl
  | cons c cs ih =>
      intro acc
      rw [List.foldl_cons]
      rcases ih (jsonFilterLines P acc c) with h | h
      · rw [h]
        exact jsonFilterLines_invariant P acc c
      · exact Or.inr h

/-- A non-empty retained record re-parses successfully: it was stored only
after `JSON.parse` accepted it. -/
theorem extract_reparses (P : String → Except String Json)
    (chunks : List String) (h : extractLastJsonLine P chunks ≠ "") :
    ∃ j, P (extractLastJsonLine P chunks) = Except.ok j := by
  rcases extract_invariant P chunks "" with h0 | h0
  · exact absurd h0 h
  · have h1 : parsesOk P (extractLastJsonLine P chunks) = true := h0
    unfold parsesOk at h1
    rcases hP : P (extractLastJsonLine P chunks) with e | j
    · rw [hP] at h1; exact Bool.noConfusion h1
    · exact ⟨j, rfl⟩

/-- Property access on a non-`null` value never throws. -/
theorem jsMemberStrict_of_not_null (j : Json) (hj : isNull j = false)
    (k : String) : jsMemberStrict j k = Except.ok (jsMember j k) := by
  cases j <;> first | rfl | exact absurd hj (by decide)

/-- The `close` handler on exit code 0 with a non-empty record that parses to
a non-`null` value: the trace is the two leading infos, the `Final JSON`
info, and then either the success info or the non-success warning. -/
theorem handleClose_parsed (P : String → Except String Json) (r : String)
    (j : Json) (hr : r ≠ "") (hP : P r = Except.ok j) (hj : isNull j = false) :
    handleClose P (some 0) r
      = [Effect.logEnd, Effect.info "qoder-cli process exited with code 0",
         Effect.info ("Final JSON: " ++ r)] ++
        (if isSuccessType (resultTypeOf (jsMember j "subtype")) then
          [Effect.info "qoder-cli reported success."]
         else
          [Effect.warning ("qoder-cli did not report success. Result type: "
            ++ jsToString (resultTypeOf (jsMember j "subtype")) ++ ".")]) := by
  unfold handleClose
  rw [if_neg (by simp), if_neg hr]
  simp only [hP, jsMemberStrict_of_not_null j hj]
  rfl

/-- Claim C9 (amended): whenever the process exits with code 0 and the
retained record is non-empty, re-parsing the retained record at
classification time always succeeds (it was stored only after a successful
`JSON.parse`); and whenever the record additionally parses to a non-`null`
value, classification emits no `setFailed` at all, so the
`Failed to parse final JSON` branch is not taken.  (The branch is still
reachable — see the counterexample — because a record that parses to JSON
`null` makes the property access `result.subtype` throw inside the same
`try` block.) -/
theorem retainedRecordReparses (P : String → Except String Json)
    (chunks : List String) (j : Json)
    (h1 : extractLastJsonLine P chunks ≠ "")
    (h2 : P (extractLastJsonLine P chunks) = Except.ok j)
    (h3 : isNull j = false) :
    (∃ j2, P (extractLastJsonLine P chunks) = Except.ok j2) ∧
    ∀ m, Effect.setFailed m ∉ handleClose P (some 0) (extractLastJsonLine P chunks) := by
  refine ⟨extract_reparses P chunks h1, ?_⟩
  intro m hm
  rw [handleClose_parsed P _ j h1 h2 h3] at hm
  by_cases hs : isSuccessType (resultTypeOf (jsMember j "subtype")) = true
  · rw [if_pos hs] at hm; simp at hm
  · rw [if_neg hs] at hm; simp at hm

/-- Witness for C9 (amended): a concrete stream consisting of the single line
`{"subtype":"success"}` (written with escaped braces). -/
theorem retainedRecordReparses_witness :
    (∃ j2, sampleParse (extractLastJsonLine sampleParse [successLine]) = Except.ok j2) ∧
    Effect.setFailed "boom"
      ∉ handleClose sampleParse (some 0) (extractLastJsonLine sampleParse [successLine]) :=
  ⟨(retainedRecordReparses sampleParse [successLine]
      (Json.obj [("subtype", Json.str "success")]) (by decide) (by rfl) rfl).1,
   (retainedRecordReparses sampleParse [successLine]
      (Json.obj [("subtype", Json.str "success")]) (by decide) (by rfl) rfl).2 "boom"⟩

/-- Counterexample to C9 as stated: the stdout line `null` parses as JSON, is
retained, re-parses successfully at classification time — and the
`Failed to parse final JSON` failure branch fires anyway, because
`result.subtype` throws a `TypeError` on the `null` record inside the same
`try`/`catch`. -/
theorem c9_nullRecordReachesParseFailureBranch :
    extractLastJsonLine sampleParse ["null"] = "null" ∧
    parsesOk sampleParse "null" = true ∧
    handleClose sampleParse (some 0) "null"
      = [Effect.logEnd, Effect.info "qoder-cli process exited with code 0",
         Effect.info "Final JSON: null",
         Effect.setFailed "Failed to parse final JSON: Cannot read properties of null (reading \x27subtype\x27)"] :=
  ⟨by decide, rfl, by decide⟩

/-- Claim C10 (amended): on exit code 0 with a retained record that parses to
a non-`null` value whose subtype is absent or differs from "success", the
run is not classified as a failure: no `setFailed` is emitted, and a warning
names the observed result type, with an absent subtype reported as
"unknown".  (A record that parses to JSON `null` — subtype absent — is the
one exception and hard-fails; see the counterexample.) -/
theorem warnAndContinueOnNonSuccess (P : String → Except String Json)
    (r : String) (j : Json)
    (h1 : r ≠ "") (h2 : P r = Except.ok j) (h3 : isNull j = false)
    (h4 : isSuccessType (resultTypeOf (jsMember j "subtype")) = false) :
    (∀ m, Effect.setFailed m ∉ handleClose P (some 0) r) ∧
    Effect.warning ("qoder-cli did not report success. Result type: "
        ++ jsToString (resultTypeOf (jsMember j "subtype")) ++ ".")
      ∈ handleClose P (some 0) r ∧
    (jsMember j "subtype" = none → resultTypeOf (jsMember j "subtype") = Json.str "unknown") := by
  refine ⟨?_, ?_, ?_⟩
  · intro m hm
    rw [handleClose_parsed P r j h1 h2 h3] at hm
    rw [if_neg (by rw [h4]; exact Bool.noConfusion)] at hm
    simp at hm
  · rw [handleClose_parsed P r j h1 h2 h3]
    rw [if_neg (by rw [h4]; exact Bool.noConfusion)]
    simp
  · intro habs; rw [habs]; rfl

/-- Witness for C10 (amended): the concrete line `{"subtype":"error"}`. -/
theorem warnAndContinueOnNonSuccess_witness :
    Effect.setFailed "boom" ∉ handleClose sampleParse (some 0) errorLine ∧
    Effect.warning ("qoder-cli did not report success. Result type: "
        ++ jsToString (resultTypeOf (jsMember (Json.obj [("subtype", Json.str "error")]) "subtype")) ++ ".")
      ∈ handleClose sampleParse (some 0) errorLine :=
  ⟨(warnAndContinueOnNonSuccess sampleParse errorLine
      (Json.obj [("subtype", Json.str "error")]) (by decide) rfl rfl rfl).1 "boom",
   (warnAndContinueOnNonSuccess sampleParse errorLine
      (Json.obj [("subtype", Json.str "error")]) (by decide) rfl rfl rfl).2.1⟩

/-- Counterexample to C10 as stated: at exit code 0 with retained record
`null` — a record whose subtype field is absent — the run IS classified as a
failure (`setFailed`, no warning), because `result.subtype` throws on the
`null` record before the warn-and-continue branch can run. -/
theorem c10_nullRecordHardFails :
    (handleClose sampleParse (some 0) "null").filter isWarningEffect = [] ∧
    (handleClose sampleParse (some 0) "null").filter isSetFailed
      = [Effect.setFailed "Failed to parse final JSON: Cannot read properties of null (reading \x27subtype\x27)"] :=
  ⟨by decide, by decide⟩

/-- Claim C1 (amended): on the success path (exit code 0, retained record
with subtype "success") the program only logs informational messages —
`qoder-cli reported success.` and the preceding infos; it sets no named
output values back to the host environment, on this or any other path (the
extracted text content `resultContentOf` is computed by the source but never
used, and `core.setOutput` is never called). -/
theorem successPathSetsNoOutputs (P : String → Except String Json)
    (r : String) (j : Json)
    (h1 : r ≠ "") (h2 : P r = Except.ok j)
    (h3 : jsMember j "subtype" = some (Json.str "success")) :
    handleClose P (some 0) r
      = [Effect.logEnd, Effect.info "qoder-cli process exited with code 0",
         Effect.info ("Final JSON: " ++ r), Effect.info "qoder-cli reported success."] ∧
    (∀ P2 c2 r2 n v, Effect.setOutput n v ∉ handleClose P2 c2 r2) := by
  have hj : isNull j = false := by
    cases j <;> first | rfl | exact Option.noConfusion h3
  constructor
  · rw [handleClose_parsed P r j h1 h2 hj, h3]
    rfl
  · intro P2 c2 r2 n v hm
    unfold handleClose at hm
    by_cases h0 : c2 ≠ some 0
    · rw [if_pos h0] at hm; simp at hm
    · rw [if_neg h0] at hm
      by_cases hr2 : r2 = ""
      · rw [if_pos hr2] at hm; simp at hm
      · rw [if_neg hr2] at hm
        rcases hE : P2 r2 with e | j2
        · simp only [hE] at hm; simp at hm
        · simp only [hE] at hm
          rcases hM : jsMemberStrict j2 "subtype" with e | f
          · simp only [hM] at hm; simp at hm
          · simp only [hM] at hm
            by_cases hS : isSuccessType (resultTypeOf f) = true
            · rw [if_pos hS] at hm; simp at hm
            · rw [if_neg hS] at hm; simp at hm

/-- Witness for C1 (amended): the concrete success line
`{"subtype":"success"}` at exit code 0. -/
theorem successPathSetsNoOutputs_witness :
    handleClose sampleParse (some 0) successLine
      = [Effect.logEnd, Effect.info "qoder-cli process exited with code 0",
         Effect.info ("Final JSON: " ++ successLine),
         Effect.info "qoder-cli reported success."] ∧
    Effect.setOutput "result" "ok" ∉ handleClose sampleParse (some 0) successLine :=
  ⟨(successPathSetsNoOutputs sampleParse successLine
      (Json.obj [("subtype", Json.str "success")]) (by decide) rfl rfl).1,
   (successPathSetsNoOutputs sampleParse successLine
      (Json.obj [("subtype", Json.str "success")]) (by decide) rfl rfl).2
     sampleParse (some 0) successLine "result" "ok"⟩

/-- Counterexample to C1 as stated: a concrete success-path run (exit code 0,
retained record `{"subtype":"success"}`).  The complete effect trace is four
informational entries; no named output value is ever set — the claim that
the result tag and extracted content are produced as outputs on the success
path is false. -/
theorem c1_successPathProducesNoOutputs :
    handleClose sampleParse (some 0) successLine
      = [Effect.logEnd, Effect.info "qoder-cli process exited with code 0",
         Effect.info ("Final JSON: " ++ successLine),
         Effect.info "qoder-cli reported success."] ∧
    (handleClose sampleParse (some 0) successLine).all (fun e => !isSetOutput e) = true :=
  ⟨by decide, by decide⟩

/-- Claim C4: for every exit code and retained record, a non-zero (or signal)
exit yields the `process failed` terminal failure with the retained record
ignored entirely — the trace is identical for any two records — and exit
code 0 with an absent record yields the `No valid JSON output` failure. -/
theorem exitCodeDominatesClassification (P : String → Except String Json)
    (code : Option Int) (r r2 : String) (h : code ≠ some 0) :
    handleClose P code r
      = [Effect.logEnd,
         Effect.info ("qoder-cli process exited with code " ++ codeToString code),
         Effect.setFailed "qoder-cli process failed. See qoder.log."] ∧
    handleClose P code r = handleClose P code r2 ∧
    handleClose P (some 0) ""
      = [Effect.logEnd, Effect.info "qoder-cli process exited with code 0",
         Effect.setFailed "No valid JSON output from qoder-cli."] := by
  refine ⟨?_, ?_, rfl⟩
  · unfold handleClose; rw [if_pos h]; rfl
  · unfold handleClose; rw [if_pos h, if_pos h]

/-- Witness for C4: exit code 7 with a valid success record retained versus
an arbitrary other record. -/
theorem exitCodeDominatesClassification_witness :
    handleClose sampleParse (some 7) successLine
      = [Effect.logEnd,
         Effect.info ("qoder-cli process exited with code " ++ codeToString (some 7)),
         Effect.setFailed "qoder-cli process failed. See qoder.log."] ∧
    handleClose sampleParse (some 7) successLine = handleClose sampleParse (some 7) "other" ∧
    handleClose sampleParse (some 0) ""
      = [Effect.logEnd, Effect.info "qoder-cli process exited with code 0",
         Effect.setFailed "No valid JSON output from qoder-cli."] :=
  exitCodeDominatesClassification sampleParse (some 7) successLine "other" (by decide)

/-- Claim C2 (amended): for every resolved set of inputs, the argument vector
passed to the child process is, in fixed positional order, the prompt flag
carrying the resolved prompt content, the output-format flag fixed to
`stream-json`, and — only when a system prompt was resolved — the
system-prompt flag with its content; nothing else (in particular no
working-directory flag) is included. -/
theorem argsVectorShape (fs : String → Option String) (inp : Inputs)
    (p s : String) (h : (resolvePrompts fs inp).1 = Except.ok (p, s)) :
    resolveAndBuildArgs fs inp = Except.ok (buildArgs p s) ∧
    (buildArgs p s).take 4 = ["--prompt", p, "--output-format", "stream-json"] ∧
    (s ≠ "" → buildArgs p s
      = ["--prompt", p, "--output-format", "stream-json", "--system-prompt", s]) ∧
    (s = "" → buildArgs p s = ["--prompt", p, "--output-format", "stream-json"]) := by
  refine ⟨?_, ?_, ?_, ?_⟩
  · unfold resolveAndBuildArgs; rw [h]
  · unfold buildArgs
    by_cases hs : s ≠ "" <;> simp [hs]
  · intro hs; unfold buildArgs; rw [if_pos hs]; rfl
  · intro hs; unfold buildArgs; rw [if_neg (by simp [hs])]; rfl

/-- Witness for C2 (amended): a run with only the literal prompt supplied. -/
theorem argsVectorShape_witness :
    resolveAndBuildArgs (fun _ => none)
        { prompt := "do it", promptPath := "", systemPrompt := "",
          systemPromptPath := "", apiKey := "k", config := "", githubToken := "" }
      = Except.ok (buildArgs "do it" "") ∧
    (buildArgs "do it" "").take 4 = ["--prompt", "do it", "--output-format", "stream-json"] ∧
    buildArgs "do it" "" = ["--prompt", "do it", "--output-format", "stream-json"] :=
  ⟨(argsVectorShape (fun _ => none)
      { prompt := "do it", promptPath := "", systemPrompt := "",
        systemPromptPath := "", apiKey := "k", config := "", githubToken := "" }
      "do it" "" rfl).1,
   (argsVectorShape (fun _ => none)
      { prompt := "do it", promptPath := "", systemPrompt := "",
        systemPromptPath := "", apiKey := "k", config := "", githubToken := "" }
      "do it" "" rfl).2.1,
   (argsVectorShape (fun _ => none)
      { prompt := "do it", promptPath := "", systemPrompt := "",
        systemPromptPath := "", apiKey := "k", config := "", githubToken := "" }
      "do it" "" rfl).2.2.2 rfl⟩

/-- Counterexample to C2 as stated: for a concretely resolved request the
argument vector has exactly four entries — the prompt flag with its value
and the output-format flag with its value.  No working-directory flag is
present (the claimed leading working-directory flag does not exist; the
source array literal starts directly with `--prompt`). -/
theorem c2_noWorkingDirectoryFlag :
    resolveAndBuildArgs (fun _ => none)
        { prompt := "do it", promptPath := "", systemPrompt := "",
          systemPromptPath := "", apiKey := "k", config := "", githubToken := "" }
      = Except.ok ["--prompt", "do it", "--output-format", "stream-json"] ∧
    (buildArgs "do it" "").length = 4 :=
  ⟨rfl, rfl⟩

/-- Claim C5: for every supplied (non-empty) raw config string, a string
that fails `JSON.parse` makes the config materializer throw an error that
embeds the underlying parse diagnostic, with no filesystem write performed;
a string that parses is written verbatim (the raw string itself, not a
re-serialization) to the fixed path `.qoder-cli.json` under the working
directory, overwriting any pre-existing contents there. -/
theorem configMaterializerSpec (P : String → Except String Json)
    (cwd cfg : String) (fs0 : String → Option String) (hne : cfg ≠ "") :
    (∀ e, P cfg = Except.error e →
      createCliConfig P cwd cfg
        = { written := none,
            errorMsg := some ("Failed to create .qoder-cli.json: " ++ e ++
              ". Please ensure the provided config is a valid JSON string.") }) ∧
    (∀ j, P cfg = Except.ok j →
      createCliConfig P cwd cfg
        = { written := some (pathJoin cwd ".qoder-cli.json", cfg), errorMsg := none } ∧
      applyWrite fs0 (pathJoin cwd ".qoder-cli.json") cfg (pathJoin cwd ".qoder-cli.json")
        = some cfg) := by
  constructor
  · intro e he
    unfold createCliConfig
    rw [if_neg hne, he]
  · intro j hj
    refine ⟨?_, ?_⟩
    · unfold createCliConfig
      rw [if_neg hne, hj]
    · unfold applyWrite
      rw [if_pos rfl]

/-- Witness for C5: the truncated literal `{"a":1` fails and writes nothing,
while a parsing config string is persisted verbatim over prior contents. -/
theorem configMaterializerSpec_witness :
    createCliConfig sampleParse "/work" "\x7b\"a\":1"
      = { written := none,
          errorMsg := some ("Failed to create .qoder-cli.json: " ++ "Unexpected token" ++
            ". Please ensure the provided config is a valid JSON string.") } ∧
    (createCliConfig sampleParse "/work" successLine
        = { written := some (pathJoin "/work" ".qoder-cli.json", successLine),
            errorMsg := none } ∧
      applyWrite (fun _ => some "old") (pathJoin "/work" ".qoder-cli.json") successLine
          (pathJoin "/work" ".qoder-cli.json")
        = some successLine) :=
  ⟨(configMaterializerSpec sampleParse "/work" "\x7b\"a\":1" (fun _ => some "old")
      (by decide)).1 "Unexpected token" rfl,
   (configMaterializerSpec sampleParse "/work" successLine (fun _ => some "old")
      (by decide)).2 (Json.obj [("subtype", Json.str "success")]) rfl⟩

/-- Claim C6: the binary provisioner fails with a download error carrying the
HTTP status code for every non-200 response — a single GET, no retry, and no
chmod — and on a 200 response it marks the destination executable only after
the write stream reports successful completion (no chmod when the stream
errors), so that after successful completion the destination holds the
response body and has the executable bit set. -/
theorem provisionerSpec (url dest : String) (resp : HttpResponse)
    (wr : Except String Unit) :
    (resp.statusCode ≠ 200 →
      setupCli url dest resp wr
        = ([SetupEvent.httpGet url],
           Except.error ("Failed to download qoder-cli: " ++ toString resp.statusCode
             ++ " " ++ resp.statusMessage))) ∧
    (resp.statusCode = 200 → wr = Except.ok () →
      setupCli url dest resp wr
        = ([SetupEvent.httpGet url, SetupEvent.fileWritten dest resp.body,
            SetupEvent.chmod dest "755"], Except.ok ()) ∧
      ∀ fs0 : String → FileState,
        (applyEvents fs0 (setupCli url dest resp wr).1 dest).contents = some resp.body ∧
        (applyEvents fs0 (setupCli url dest resp wr).1 dest).exec = true) ∧
    (∀ e, wr = Except.error e →
      ∀ d m, SetupEvent.chmod d m ∉ (setupCli url dest resp wr).1) := by
  refine ⟨?_, ?_, ?_⟩
  · intro hne
    unfold setupCli
    rw [if_pos hne]
  · intro h200 hok
    have heq : setupCli url dest resp wr
        = ([SetupEvent.httpGet url, SetupEvent.fileWritten dest resp.body,
            SetupEvent.chmod dest "755"], Except.ok ()) := by
      unfold setupCli
      rw [if_neg (by rw [h200]; exact fun hc => hc rfl), hok]
    refine ⟨heq, ?_⟩
    intro fs0
    rw [heq]
    unfold applyEvents applyEvent
    simp
  · intro e he d m hm
    unfold setupCli at hm
    by_cases hne : resp.statusCode ≠ 200
    · rw [if_pos hne] at hm; simp at hm
    · rw [if_neg hne, he] at hm; simp at hm

/-- Witness for C6: a 404 response fails with the status code in the message
and produces no chmod; a 200 response with a completed write produces the
write followed by the chmod. -/
theorem provisionerSpec_witness :
    setupCli "https://host/qoder-cli" "qoder-cli"
        { statusCode := 404, statusMessage := "Not Found", body := "B" } (Except.ok ())
      = ([SetupEvent.httpGet "https://host/qoder-cli"],
         Except.error ("Failed to download qoder-cli: " ++ toString (404 : Nat)
           ++ " " ++ "Not Found")) ∧
    setupCli "https://host/qoder-cli" "qoder-cli"
        { statusCode := 200, statusMessage := "OK", body := "B" } (Except.ok ())
      = ([SetupEvent.httpGet "https://host/qoder-cli",
          SetupEvent.fileWritten "qoder-cli" "B",
          SetupEvent.chmod "qoder-cli" "755"], Except.ok ()) :=
  ⟨(provisionerSpec "https://host/qoder-cli" "qoder-cli"
      { statusCode := 404, statusMessage := "Not Found", body := "B" }
      (Except.ok ())).1 (by decide),
   ((provisionerSpec "https://host/qoder-cli" "qoder-cli"
      { statusCode := 200, statusMessage := "OK", body := "B" }
      (Except.ok ())).2.1 rfl rfl).1⟩

/-- Claim C7: for every pair of non-empty strings A and B, supplying both the
literal and the file-path form of the same logical input — task prompt or
system prompt — fails with the corresponding mutually-exclusive error before
any file is read: the failing run performs no file reads. -/
theorem conflictFailsBeforeReads (fs : String → Option String) (inp : Inputs)
    (A B : String) (hA : A ≠ "") (hB : B ≠ "")
    (h : (inp.prompt = A ∧ inp.promptPath = B)
      ∨ (inp.systemPrompt = A ∧ inp.systemPromptPath = B)) :
    ((resolvePrompts fs inp).1
        = Except.error "The `prompt` and `prompt_path` inputs are mutually exclusive. Please provide only one."
      ∨ (resolvePrompts fs inp).1
        = Except.error "The `system_prompt` and `system_prompt_path` inputs are mutually exclusive. Please provide only one.") ∧
    (resolvePrompts fs inp).2 = [] := by
  rcases h with ⟨h1, h2⟩ | ⟨h1, h2⟩
  · have hc : inp.prompt ≠ "" ∧ inp.promptPath ≠ "" := ⟨h1 ▸ hA, h2 ▸ hB⟩
    unfold resolvePrompts
    rw [if_pos hc]
    exact ⟨Or.inl rfl, rfl⟩
  · by_cases hc : inp.prompt ≠ "" ∧ inp.promptPath ≠ ""
    · unfold resolvePrompts
      rw [if_pos hc]
      exact ⟨Or.inl rfl, rfl⟩
    · have hc2 : inp.systemPrompt ≠ "" ∧ inp.systemPromptPath ≠ "" := ⟨h1 ▸ hA, h2 ▸ hB⟩
      unfold resolvePrompts
      rw [if_neg hc, if_pos hc2]
      exact ⟨Or.inr rfl, rfl⟩

/-- Witness for C7: both `prompt = "A"` and `prompt_path = "B"` supplied, with
a filesystem on which every path exists — still no read happens. -/
theorem conflictFailsBeforeReads_witness :
    ((resolvePrompts (fun _ => some "contents")
        { prompt := "A", promptPath := "B", systemPrompt := "",
          systemPromptPath := "", apiKey := "k", config := "", githubToken := "" }).1
        = Except.error "The `prompt` and `prompt_path` inputs are mutually exclusive. Please provide only one."
      ∨ (resolvePrompts (fun _ => some "contents")
        { prompt := "A", promptPath := "B", systemPrompt := "",
          systemPromptPath := "", apiKey := "k", config := "", githubToken := "" }).1
        = Except.error "The `system_prompt` and `system_prompt_path` inputs are mutually exclusive. Please provide only one.") ∧
    (resolvePrompts (fun _ => some "contents")
        { prompt := "A", promptPath := "B", systemPrompt := "",
          systemPromptPath := "", apiKey := "k", config := "", githubToken := "" }).2 = [] :=
  conflictFailsBeforeReads (fun _ => some "contents")
    { prompt := "A", promptPath := "B", systemPrompt := "",
      systemPromptPath := "", apiKey := "k", config := "", githubToken := "" }
    "A" "B" (by decide) (by decide) (Or.inl ⟨rfl, rfl⟩)

/-- Appending one binding to an environment: lookup of its key hits it,
lookup of any other key falls through. -/
theorem lookupEnv_concat (env : List (String × String)) (k1 v1 k : String) :
    lookupEnv (env ++ [(k1, v1)]) k
      = if k1 = k then some v1 else lookupEnv env k := by
  unfold lookupEnv
  rw [List.foldl_append]
  rfl

/-- Claim C8 (amended): the credential input (`dashscope_api_key`) is
required, not optional — reading the inputs throws before anything else when
it is absent — and the child environment always contains the credential
entry.  It is the auxiliary token (`github_token`) that is optional: when it
is absent the environment overlay adds only the credential entry (no
empty-string token entry is injected), and when it is supplied the
environment contains it. -/
theorem credentialRequiredSpec (inputs : String → String)
    (parentEnv : List (String × String)) (a g : String)
    (hmiss : inputs "dashscope_api_key" = "") :
    readInputs inputs = Except.error "Input required and not supplied: dashscope_api_key" ∧
    lookupEnv (buildEnv parentEnv a g) "DASHSCOPE_API_KEY" = some a ∧
    buildEnv parentEnv a "" = parentEnv ++ [("DASHSCOPE_API_KEY", a)] ∧
    (g ≠ "" → lookupEnv (buildEnv parentEnv a g) "GITHUB_TOKEN" = some g) := by
  refine ⟨?_, ?_, ?_, ?_⟩
  · unfold readInputs; rw [if_pos hmiss]
  · unfold buildEnv
    by_cases hg : g ≠ ""
    · rw [if_pos hg, lookupEnv_concat]
      rw [if_neg (by decide), lookupEnv_concat, if_pos rfl]
    · rw [if_neg hg]
      rw [List.append_nil, lookupEnv_concat, if_pos rfl]
  · unfold buildEnv
    rw [if_neg (by simp), List.append_nil]
  · intro hg
    unfold buildEnv
    rw [if_pos hg, lookupEnv_concat, if_pos rfl]

/-- Witness for C8 (amended): concrete inputs with the credential absent and
a concrete environment overlay with the token supplied. -/
theorem credentialRequiredSpec_witness :
    readInputs (fun n => if n = "prompt" then "hi" else "")
      = Except.error "Input required and not supplied: dashscope_api_key" ∧
    lookupEnv (buildEnv [("HOME", "/root")] "key" "tok") "DASHSCOPE_API_KEY" = some "key" ∧
    buildEnv [("HOME", "/root")] "key" "" = [("HOME", "/root")] ++ [("DASHSCOPE_API_KEY", "key")] ∧
    lookupEnv (buildEnv [("HOME", "/root")] "key" "tok") "GITHUB_TOKEN" = some "tok" :=
  ⟨(credentialRequiredSpec (fun n => if n = "prompt" then "hi" else "")
      [("HOME", "/root")] "key" "tok" (by decide)).1,
   (credentialRequiredSpec (fun n => if n = "prompt" then "hi" else "")
      [("HOME", "/root")] "key" "tok" (by decide)).2.1,
   (credentialRequiredSpec (fun n => if n = "prompt" then "hi" else "")
      [("HOME", "/root")] "key" "" (by decide)).2.2.1,
   (credentialRequiredSpec (fun n => if n = "prompt" then "hi" else "")
      [("HOME", "/root")] "key" "tok" (by decide)).2.2.2 (by decide)⟩

/-- Counterexample to C8 as stated: with every other input present but the
credential absent, reading the inputs already fails with the `required`
error — the credential is not optional and the run cannot proceed without
it. -/
theorem c8_credentialIsRequired :
    readInputs (fun n => if n = "prompt" then "hi" else "")
      = Except.error "Input required and not supplied: dashscope_api_key" :=
  rfl
